import Mathlib

/-!
Verification development for the environmental-burden-of-disease pipeline.

The Python sources embedded here are:
* `code/features/data_cleaning.py` — the three cleaning pipelines
  (`clean_env_burden_data`, `clean_health_exp_data`, `clean_env_exp_data`)
  and the ISO-3166 resolver `get_country_code`;
* `code/features/EDA_NoMarkdown.py` — the two inner merges producing
  `env_burden_data`;
* `code/deployment/app.py` — the dashboard-side derived table `df_subset`
  with its `Other` column.

Modelling conventions:
* pandas DataFrames are lists of records (row structures); column subsets
  that the pipelines drop without reading are not carried;
* floats are modelled as rationals (`ℚ`); a missing float (NaN) is `none`
  in an `Option ℚ`;
* `pandas.pivot_table` (default `aggfunc='mean'`, `dropna=True`) is
  modelled by grouping on the distinct keys and taking the arithmetic
  mean of the non-missing matching values.  pandas sorts the resulting
  index; we keep a dedup order instead — every property below is
  insensitive to row order;
* the external `pycountry.countries.lookup`, which either returns a
  country object or raises `LookupError`, is a parameter of type
  `String → Except Unit PycoCountry`.
-/

namespace EnvBurden

/-- A raw spreadsheet cell: missing, a text value, or a numeric value. -/
inductive Cell where
  | na : Cell
  | txt (s : String) : Cell
  | num (q : ℚ) : Cell
deriving DecidableEq, Repr

/-- A Python dict used with `DataFrame.replace`/`rename`: keys found in the
mapping are replaced, anything else passes through unchanged. -/
def applyMap (m : List (String × String)) (s : String) : String :=
  match m.find? (fun p => p.1 == s) with
  | some p => p.2
  | none => s

/-- Result object of `pycountry.countries.lookup`. -/
structure PycoCountry where
  alpha_3 : String
deriving DecidableEq, Repr

/-- `get_country_code` from `data_cleaning.py`: wraps the pycountry lookup,
catching `LookupError` and returning `None`.  The lookup itself is external
and passed as a parameter. -/
def get_country_code (lookup : String → Except Unit PycoCountry)
    (country_name : String) : Option String :=
  match lookup country_name with
  | .ok country => some country.alpha_3
  | .error _ => none

/-- Arithmetic mean of a list of rationals (`none` when the list is empty);
this is the default `aggfunc='mean'` of `pandas.pivot_table` on one cell. -/
def listMean (l : List ℚ) : Option ℚ :=
  if l.isEmpty then none else some (l.sum / (l.length : ℚ))

/-! ### Environmental burden cleaner (`clean_env_burden_data`) -/

/-- One row of the raw IHME burden extract.  The columns listed in
`columns_to_remove` (`measure_id`, …, `upper`, `lower`) are dropped by
step 2 without ever being read, so they are not carried here. -/
structure BurdenRawRow where
  sex_name : String
  location_name : String
  rei_name : String
  year : Nat
  val : ℚ
deriving DecidableEq, Repr

/-- Default `indicators_to_remove` argument of `clean_env_burden_data`. -/
def indicatorsToRemoveDefault : List String :=
  ["Unsafe water, sanitation, and handwashing", "Non-optimal temperature"]

/-- Steps 1–3 of `clean_env_burden_data`: keep rows with `sex_name == 'Both'`
and whose `rei_name` is not in `indicators_to_remove`. -/
def burdenFiltered (df_raw : List BurdenRawRow)
    (indicators_to_remove : List String) : List BurdenRawRow :=
  (df_raw.filter (fun r => r.sex_name == "Both")).filter
    (fun r => !(indicators_to_remove.contains r.rei_name))

/-- The distinct pivot index keys `(country, year)` (step 5); the raw
`location_name` has been renamed to `country` at step 4. -/
def burdenKeys (rs : List BurdenRawRow) : List (String × Nat) :=
  (rs.map (fun r => (r.location_name, r.year))).dedup

/-- The distinct pivot columns, one per `rei_name` (step 5). -/
def burdenCols (rs : List BurdenRawRow) : List String :=
  (rs.map (fun r => r.rei_name)).dedup

/-- The `val` entries that fall into one pivot cell. -/
def burdenMatchingVals (rs : List BurdenRawRow) (c : String) (y : Nat)
    (i : String) : List ℚ :=
  (rs.filter (fun r => r.location_name == c && r.year == y && r.rei_name == i)).map
    (fun r => r.val)

/-- A pivoted burden row, before the column/country renames. -/
structure BurdenPivotRow where
  country : String
  year : Nat
  vals : List (String × Option ℚ)
deriving DecidableEq, Repr

/-- Steps 4–6 of `clean_env_burden_data`: `pivot_table(index=['country','year'],
columns='rei_name', values='val')` followed by `reset_index()`.  The default
`aggfunc` is the mean, so duplicate `(country, year, rei_name)` rows are
silently averaged. -/
def burdenPivot (rs : List BurdenRawRow) : List BurdenPivotRow :=
  (burdenKeys rs).map (fun k =>
    { country := k.1, year := k.2,
      vals := (burdenCols rs).map
        (fun col => (col, listMean (burdenMatchingVals rs k.1 k.2 col))) })

/-- One row of the cleaned burden table. -/
structure BurdenRow where
  country : String
  year : Nat
  vals : List (String × Option ℚ)
  ISO_3166_1_alpha_3 : Option String
deriving DecidableEq, Repr

/-- `clean_env_burden_data` from `data_cleaning.py`.  Steps 1–6 are
`burdenFiltered`/`burdenPivot`; step 7 renames the indicator columns with
`variable_name_mapping` (the mapping is applied to the pivot columns — the
index columns `country`/`year` are not indicator names); step 8 shortens the
country names; step 9 casts `year` to int (already integral here) and
assigns `ISO_3166_1_alpha_3 = country.apply(get_country_code)`.  Step 10,
writing the CSV checkpoint, is I/O and not modelled. -/
def clean_env_burden_data (lookup : String → Except Unit PycoCountry)
    (df_raw : List BurdenRawRow)
    (country_name_mapping variable_name_mapping : List (String × String))
    (indicators_to_remove : List String := indicatorsToRemoveDefault) :
    List BurdenRow :=
  (burdenPivot (burdenFiltered df_raw indicators_to_remove)).map (fun r =>
    let c := applyMap country_name_mapping r.country
    { country := c
      year := r.year
      vals := r.vals.map (fun p => (applyMap variable_name_mapping p.1, p.2))
      ISO_3166_1_alpha_3 := get_country_code lookup c })

/-! ### Health expenditure cleaner (`clean_health_exp_data`) -/

/-- One row of the raw World-Bank health expenditure extract after step 3's
rename: the first column holds the country name, the remaining data columns
are year-labelled (the stray `Unnamed: 11` column that step 2 drops unread is
not carried). -/
structure HealthRawRow where
  country : String
  cells : List (String × Cell)
deriving DecidableEq, Repr

/-- Read one cell of a raw row; a column with no stored entry is missing. -/
def getCell (r : HealthRawRow) (c : String) : Cell :=
  match r.cells.find? (fun p => p.1 == c) with
  | some p => p.2
  | none => .na

/-- The raw health frame: the year-column labels (in order) and the rows. -/
structure HealthRawFrame where
  cols : List String
  rows : List HealthRawRow
deriving DecidableEq, Repr

/-- The ten column labels of the `dropna` subset in step 6. -/
def healthYearCols : List String :=
  ["2010", "2011", "2012", "2013", "2014", "2015", "2016", "2017", "2018", "2019"]

/-- Step 5: `.replace(['..', '...'], pd.NA)` on a single cell. -/
def replaceNAtokens (c : Cell) : Cell :=
  match c with
  | .txt ".." => .na
  | .txt "..." => .na
  | c => c

/-- The numeric value of a decimal digit character. -/
def digitVal (c : Char) : Nat := c.toNat - 48

/-- `astype('int64')` on one label: parse a non-empty all-digit string as a
decimal number, `none` (Python: a raised error) otherwise. -/
def strToNat? (s : String) : Option Nat :=
  if s.data ≠ [] ∧ s.data.all (fun c => c.isDigit) then
    some (s.data.foldl (fun n c => 10 * n + digitVal c) 0)
  else none

/-- Lexicographic `≤` on code-point lists — Python's `<=` on strings. -/
def lexLeChars : List Char → List Char → Bool
  | [], _ => true
  | _ :: _, [] => false
  | a :: as, b :: bs =>
    if a.val < b.val then true else if b.val < a.val then false else lexLeChars as bs

/-- Python's string comparison `s <= t`, used by step 8's year filter. -/
def leStr (s t : String) : Bool := lexLeChars s.data t.data

/-- Steps 1, 4 and 5 of `clean_health_exp_data`: drop the trailing footer
row, apply the country-name mapping, replace the placeholder tokens by
missing values.  (Step 2 drops the unread `Unnamed: 11` column and step 3
renames the first column to `country`; both are built into the row type.
`replace` also scans the country column, where the placeholder tokens do
not occur as country names.) -/
def healthPrepared (df_raw : HealthRawFrame)
    (country_name_mapping : List (String × String)) : List HealthRawRow :=
  (df_raw.rows.dropLast.map
      (fun r => { r with country := applyMap country_name_mapping r.country })).map
    (fun r => { r with cells := r.cells.map (fun p => (p.1, replaceNAtokens p.2)) })

/-- Step 6's row predicate: no missing value in any of the 2010–2019 columns. -/
def healthComplete (r : HealthRawRow) : Bool :=
  healthYearCols.all (fun y => !(getCell r y == Cell.na))

/-- Steps 1–6 of `clean_health_exp_data`. -/
def healthRows6 (df_raw : HealthRawFrame)
    (country_name_mapping : List (String × String)) : List HealthRawRow :=
  (healthPrepared df_raw country_name_mapping).filter healthComplete

/-- One record of the melted (long-format) health table of step 7; `year`
still holds the column label (a string) at this stage. -/
structure MeltedHealth where
  country : String
  year : String
  HEALTH_EXP : Cell
deriving DecidableEq, Repr

/-- Step 7: `melt(id_vars='country', var_name='year', value_name='HEALTH_EXP')`
over every remaining data column. -/
def healthMelted (df_raw : HealthRawFrame)
    (country_name_mapping : List (String × String)) : List MeltedHealth :=
  (healthRows6 df_raw country_name_mapping).flatMap (fun r =>
    df_raw.cols.map (fun y => { country := r.country, year := y, HEALTH_EXP := getCell r y }))

/-- One row of the cleaned health table. -/
structure HealthRow where
  country : String
  year : Nat
  HEALTH_EXP : Cell
  ISO_3166_1_alpha_3 : Option String
deriving DecidableEq, Repr

/-- `clean_health_exp_data` from `data_cleaning.py`.  Steps 1–7 are
`healthMelted`; step 8 keeps the rows whose year *label* lies between
`'2010'` and `'2019'` in Python's string order; steps 9–11 cast `year` to
int, keep the expenditure value, and assign
`ISO_3166_1_alpha_3 = country.apply(get_country_code)`.  `astype('int64')`
raises on a non-numeric label; it is modelled by `strToNat?`, which under
the year-labelled-columns validity assumption always returns `some`.
`astype('float64')` on the expenditure is the identity on the numeric cells
this model carries.  Step 12, the CSV checkpoint, is I/O and not modelled. -/
def clean_health_exp_data (lookup : String → Except Unit PycoCountry)
    (df_raw : HealthRawFrame)
    (country_name_mapping : List (String × String)) : List HealthRow :=
  ((healthMelted df_raw country_name_mapping).filter
      (fun m => leStr "2010" m.year && leStr m.year "2019")).map
    (fun m =>
      { country := m.country
        year := (strToNat? m.year).getD 0
        HEALTH_EXP := m.HEALTH_EXP
        ISO_3166_1_alpha_3 := get_country_code lookup m.country })

/-! ### Environmental expenditure cleaner (`clean_env_exp_data`) -/

/-- One row of the raw IMF environmental expenditure extract.  The metadata
columns dropped unread in step 1 (`ObjectId`, `ISO2`, `Indicator`, `Source`,
`CTS_Code`, `CTS_Full_Descriptor`) are not carried.  Cells of the
year-labelled columns (`F1995` … `F2022`) are numeric or missing. -/
structure EnvRawRow where
  Country : String
  ISO3 : Option String
  CTS_Name : String
  Unit : String
  cells : String → Option ℚ

/-- Read one year cell of a raw environment row. -/
def getEnvCell (r : EnvRawRow) (c : String) : Option ℚ :=
  r.cells c

/-- The raw environment frame: year-column labels and rows. -/
structure EnvRawFrame where
  cols : List String
  rows : List EnvRawRow

/-- `years_to_drop` from `clean_env_exp_data`: the comprehension
`[f'F{i}' for i in range(1995, 2009)] + [f'F{i}' for i in range(2020, 2023)]`,
written out. -/
def years_to_drop : List String :=
  ["F1995", "F1996", "F1997", "F1998", "F1999", "F2000", "F2001",
   "F2002", "F2003", "F2004", "F2005", "F2006", "F2007", "F2008",
   "F2020", "F2021", "F2022"]

/-- `env_expenditures_to_sum_up` from `clean_env_exp_data`. -/
def env_expenditures_to_sum_up : List String :=
  ["ENV_EXP_Prot", "ENV_EXP_BIODIV", "ENV_EXP_OTHER", "ENV_EXP_ResDev",
   "ENV_EXP_POLLUTION", "ENV_EXP_WASTE", "ENV_EXP_WASTEWATER"]

/-- The column labels of step 6's `dropna` subset. -/
def envDropnaCols : List String :=
  ["F2010", "F2011", "F2012", "F2013", "F2014",
   "F2015", "F2016", "F2017", "F2018", "F2019"]

/-- Step 2: the year columns remaining after dropping `years_to_drop`. -/
def envColsKept (cols : List String) : List String :=
  cols.filter (fun c => !(years_to_drop.contains c))

/-- Steps 3 and 6: keep the `Percent of GDP` rows that have no missing value
in any of the `F2010`–`F2019` columns.  (Steps 1, 2, 4, 5 drop or rename
columns and are built into the record shape.) -/
def envRows6 (df_raw : EnvRawFrame) : List EnvRawRow :=
  (df_raw.rows.filter (fun r => r.Unit == "Percent of GDP")).filter
    (fun r => envDropnaCols.all (fun y => (getEnvCell r y).isSome))

/-- One record of the melted environment table of step 7. -/
structure MeltedEnv where
  Country : String
  ISO3 : Option String
  expenditure_id : String
  Year : String
  Env_Expenditure : Option ℚ
deriving DecidableEq, Repr

/-- Step 7: `melt(id_vars=['Country','ISO3','expenditure_id'],
var_name='Year', value_name='Env_Expenditure')` over the kept year columns. -/
def envMelted (df_raw : EnvRawFrame) : List MeltedEnv :=
  (envRows6 df_raw).flatMap (fun r =>
    (envColsKept df_raw.cols).map (fun y =>
      { Country := r.Country, ISO3 := r.ISO3, expenditure_id := r.CTS_Name,
        Year := y, Env_Expenditure := getEnvCell r y }))

/-- The distinct pivot index keys `(Country, ISO3, Year)` of step 8. -/
def envPivotKeys (ms : List MeltedEnv) : List (String × Option String × String) :=
  (ms.map (fun m => (m.Country, m.ISO3, m.Year))).dedup

/-- The distinct pivot columns of step 8, one per `expenditure_id`. -/
def envPivotCols (ms : List MeltedEnv) : List String :=
  (ms.map (fun m => m.expenditure_id)).dedup

/-- The non-missing expenditure values that fall into one pivot cell. -/
def envMatchingVals (ms : List MeltedEnv) (k : String × Option String × String)
    (col : String) : List ℚ :=
  (ms.filter (fun m =>
      m.Country == k.1 && m.ISO3 == k.2.1 && m.Year == k.2.2 && m.expenditure_id == col)).filterMap
    (fun m => m.Env_Expenditure)

/-- A pivoted environment row after the step-10 column rename. -/
structure EnvPivotRow where
  Country : String
  ISO3 : Option String
  Year : String
  vals : List (String × Option ℚ)
deriving DecidableEq, Repr

/-- Steps 8–10 of `clean_env_exp_data`: `pivot_table(index=['Country','ISO3',
'Year'], columns='expenditure_id', values='Env_Expenditure')`, `reset_index()`
and the `rename(columns=variable_name_mapping)` (the mapping holds
expenditure-category names; the index columns are untouched).  An index key
all of whose cells are missing is kept here with empty cells where pandas
drops it; such keys can only carry the year `F2009` and are removed by the
step-17 year filter either way. -/
def envPivoted (df_raw : EnvRawFrame)
    (variable_name_mapping : List (String × String)) : List EnvPivotRow :=
  (envPivotKeys (envMelted df_raw)).map (fun k =>
    { Country := k.1, ISO3 := k.2.1, Year := k.2.2,
      vals := (envPivotCols (envMelted df_raw)).map (fun col =>
        (applyMap variable_name_mapping col,
         listMean (envMatchingVals (envMelted df_raw) k col))) })

/-- `x[cols].sum(axis=1)` restricted to one label: the sum of the non-missing
entries of every column labelled `c` (pandas label selection keeps all
occurrences of a duplicated label). -/
def colSum (vals : List (String × Option ℚ)) (c : String) : ℚ :=
  ((vals.filter (fun p => p.1 == c)).filterMap (fun p => p.2)).sum

/-- Step 11: `ENV_EXP_TOTAL = x[env_expenditures_to_sum_up].sum(axis=1)` —
the row-sum, over the seven selected labels, of the present values
(`sum` skips missing entries, so they contribute zero). -/
def envTotal (vals : List (String × Option ℚ)) : ℚ :=
  (env_expenditures_to_sum_up.map (fun c => colSum vals c)).sum

/-- Step 15: `.str.replace('F', '')` — remove every `F` from the label. -/
def stripF (s : String) : String :=
  String.mk (s.data.filter (fun c => !(c == 'F')))

/-- One row of the cleaned environment expenditure table; `extra` holds any
pivot column that survives step 12's drop of the seven sub-categories. -/
structure EnvRow where
  country : String
  ISO_3166_1_alpha_3 : Option String
  year : Nat
  ENV_EXP_TOTAL : ℚ
  extra : List (String × Option ℚ)
deriving DecidableEq, Repr

/-- `clean_env_exp_data` from `data_cleaning.py`.  Steps 1–10 are
`envPivoted`.  Step 11's column selection `x[env_expenditures_to_sum_up]`
raises a `KeyError` when one of the seven labels is absent from the pivoted
frame, modelled by the `Except` error branch.  Step 12 drops the seven
sub-category columns, step 13 applies the country mapping, step 14 renames
the key columns, steps 15–16 strip the `F` prefix and cast the year to int
(`strToNat?`; on the `F`-prefixed year labels of the data model it always
returns `some` — an unparseable label would make `astype` raise, while here
it yields year `0`, removed by step 17), and step 17 keeps years in
[2010, 2019].  Step 18, the CSV checkpoint, is I/O and not modelled. -/
def clean_env_exp_data (df_raw : EnvRawFrame)
    (country_name_mapping variable_name_mapping : List (String × String)) :
    Except String (List EnvRow) :=
  if env_expenditures_to_sum_up.all (fun c =>
      ((envPivotCols (envMelted df_raw)).map (applyMap variable_name_mapping)).contains c) then
    .ok (((envPivoted df_raw variable_name_mapping).map (fun r =>
        { country := applyMap country_name_mapping r.Country
          ISO_3166_1_alpha_3 := r.ISO3
          year := (strToNat? (stripF r.Year)).getD 0
          ENV_EXP_TOTAL := envTotal r.vals
          extra := r.vals.filter
            (fun p => !(env_expenditures_to_sum_up.contains p.1)) })).filter
      (fun r => decide (2010 ≤ r.year) && decide (r.year ≤ 2019)))
  else
    .error "KeyError: missing expenditure column"

/-! ### Merge engine (`EDA_NoMarkdown.py`, lines 55–59) -/

/-- One row of the merged canonical dataset `env_burden_data`. -/
structure MergedRow where
  country : String
  year : Nat
  ISO_3166_1_alpha_3 : Option String
  HEALTH_EXP : Cell
  ENV_EXP_TOTAL : ℚ
  envExtra : List (String × Option ℚ)
  burdenVals : List (String × Option ℚ)
deriving DecidableEq, Repr

/-- `pd.merge(health_exp_clean, env_exp_clean, on=['country','year',
'ISO_3166_1_alpha_3'], how='inner')` — every matching pair of rows.  pandas
matches missing (`NaN`) join keys with each other, mirrored by `Option`
equality on the ISO3 component. -/
def expenditures_merged (h : List HealthRow) (e : List EnvRow) :
    List (HealthRow × EnvRow) :=
  h.flatMap (fun hr =>
    (e.filter (fun er =>
        er.country == hr.country && er.year == hr.year &&
        er.ISO_3166_1_alpha_3 == hr.ISO_3166_1_alpha_3)).map (fun er => (hr, er)))

/-- `env_burden_data`: the second inner merge, joining the expenditure pairs
with the cleaned burden table on the same key. -/
def env_burden_data (h : List HealthRow) (e : List EnvRow) (b : List BurdenRow) :
    List MergedRow :=
  (expenditures_merged h e).flatMap (fun pr =>
    (b.filter (fun br =>
        br.country == pr.1.country && br.year == pr.1.year &&
        br.ISO_3166_1_alpha_3 == pr.1.ISO_3166_1_alpha_3)).map (fun br =>
      { country := pr.1.country, year := pr.1.year,
        ISO_3166_1_alpha_3 := pr.1.ISO_3166_1_alpha_3,
        HEALTH_EXP := pr.1.HEALTH_EXP, ENV_EXP_TOTAL := pr.2.ENV_EXP_TOTAL,
        envExtra := pr.2.extra, burdenVals := br.vals }))

/-- The `(country, year, ISO3)` key of a merged row. -/
def mergedKey (r : MergedRow) : String × Nat × Option String :=
  (r.country, r.year, r.ISO_3166_1_alpha_3)

/-- The `(country, year, ISO3)` key of a cleaned health row. -/
def healthKey (r : HealthRow) : String × Nat × Option String :=
  (r.country, r.year, r.ISO_3166_1_alpha_3)

/-- The `(country, year, ISO3)` key of a cleaned environment row. -/
def envKey (r : EnvRow) : String × Nat × Option String :=
  (r.country, r.year, r.ISO_3166_1_alpha_3)

/-- The `(country, year, ISO3)` key of a cleaned burden row. -/
def burdenKey (r : BurdenRow) : String × Nat × Option String :=
  (r.country, r.year, r.ISO_3166_1_alpha_3)

/-! ### Dashboard-side derived table (`app.py`, lines 34–38) -/

/-- One row of `df_global` in `app.py` after the `dict_feature_mapping`
rename: `HEALTH_EXP` has become `Health Expenses`, `ENV_EXP_TOTAL` has
become `Environment Expenses` (spaces are not legal in Lean field names),
and `ISO_3166_1_alpha_3` has become `iso3_code`.  The dashboard reads the
CSV, so the expenditures are plain floats here. -/
structure AppRow where
  country : String
  year : Nat
  iso3_code : Option String
  HealthExpenses : ℚ
  EnvironmentExpenses : ℚ
  dalys : List (String × Option ℚ)
deriving DecidableEq, Repr

/-- One row of `df_subset`: the columns matching
`'country|year|Health|Environment'` plus the derived `Other` column. -/
structure SubsetRow where
  country : String
  year : Nat
  HealthExpenses : ℚ
  EnvironmentExpenses : ℚ
  Other : ℚ
deriving DecidableEq, Repr

/-- `df_subset` from `app.py`: select the country/year/expenditure columns of
every row and assign `Other = 100 - (Health Expenses + Environment Expenses)`. -/
def df_subset (df_global : List AppRow) : List SubsetRow :=
  df_global.map (fun r =>
    { country := r.country, year := r.year,
      HealthExpenses := r.HealthExpenses,
      EnvironmentExpenses := r.EnvironmentExpenses,
      Other := 100 - (r.HealthExpenses + r.EnvironmentExpenses) })

/-! ### Concrete sample data used by the witnesses -/

/-- Sample dashboard table for the C9 witness: expenditures summing to 110. -/
def sampleAppTable : List AppRow :=
  [{ country := "Atlantis", year := 2010, iso3_code := none,
     HealthExpenses := 60, EnvironmentExpenses := 50, dalys := [] }]

/-- The row `df_subset` derives from `sampleAppTable`. -/
def sampleSubsetRow : SubsetRow :=
  { country := "Atlantis", year := 2010,
    HealthExpenses := 60, EnvironmentExpenses := 50, Other := -10 }

/-- A concrete resolver knowing the canonical name `Atlantis` only. -/
def sampleLookup : String → Except Unit PycoCountry := fun n =>
  if n == "Atlantis" then .ok { alpha_3 := "ATL" } else .error ()

/-- A country-name mapping shortening `Kingdom of Atlantis` to `Atlantis`. -/
def sampleCM : List (String × String) := [("Kingdom of Atlantis", "Atlantis")]

/-- A raw health extract: one complete country plus the footer row. -/
def sampleHealthFrame : HealthRawFrame :=
  { cols := healthYearCols,
    rows := [ { country := "Kingdom of Atlantis",
                cells := healthYearCols.map (fun y => (y, Cell.num 5)) },
              { country := "Source: World Development Indicators", cells := [] } ] }

/-- The first cleaned health row produced from `sampleHealthFrame`. -/
def sampleHealthRow : HealthRow :=
  { country := "Atlantis", year := 2010, HEALTH_EXP := .num 5,
    ISO_3166_1_alpha_3 := some "ATL" }

/-- Cleaned inputs for the C3 witness: one common key, one key per table
that the others lack. -/
def sampleHealthClean : List HealthRow :=
  [ { country := "Atlantis", year := 2010, HEALTH_EXP := .num 5,
      ISO_3166_1_alpha_3 := some "ATL" },
    { country := "Lemuria", year := 2011, HEALTH_EXP := .num 3,
      ISO_3166_1_alpha_3 := some "LEM" } ]

/-- Environment input for the C3 witness. -/
def sampleEnvClean : List EnvRow :=
  [ { country := "Atlantis", year := 2010, ISO_3166_1_alpha_3 := some "ATL",
      ENV_EXP_TOTAL := 7, extra := [] },
    { country := "Mu", year := 2012, ISO_3166_1_alpha_3 := some "MUX",
      ENV_EXP_TOTAL := 1, extra := [] } ]

/-- Burden input for the C3 witness. -/
def sampleBurdenClean : List BurdenRow :=
  [ { country := "Atlantis", year := 2010, vals := [("DALY_OZONE_POLLUTION", some 9)],
      ISO_3166_1_alpha_3 := some "ATL" } ]

/-- A resolver that knows no names at all. -/
def noLookup : String → Except Unit PycoCountry := fun _ => .error ()

/-- A raw burden extract with two aggregate-sex rows for the same
`(country, year, indicator)` triple, carrying the values 1 and 3. -/
def burdenDupRaw : List BurdenRawRow :=
  [ { sex_name := "Both", location_name := "Atlantis",
      rei_name := "Ambient ozone pollution", year := 2010, val := 1 },
    { sex_name := "Both", location_name := "Atlantis",
      rei_name := "Ambient ozone pollution", year := 2010, val := 3 } ]

/-- The single row `clean_env_burden_data` returns on `burdenDupRaw`. -/
def burdenDupCleanRow : BurdenRow :=
  { country := "Atlantis", year := 2010,
    vals := [("Ambient ozone pollution", some 2)], ISO_3166_1_alpha_3 := none }

/-- Year cells for the sample environment rows: 1 percent of GDP in every
year of the 2010–2019 window, nothing elsewhere. -/
def cellsAll1 : String → Option ℚ := fun y =>
  if envDropnaCols.contains y then some 1 else none

/-- A raw environmental expenditure frame: Atlantis reports all seven
sub-categories, Lemuria lacks the waste category; only the `F2010` year
column is carried.  Every reported value is 1 (percent of GDP). -/
def sampleEnvFrame : EnvRawFrame :=
  { cols := ["F2010"],
    rows :=
      (env_expenditures_to_sum_up.map (fun cat =>
        { Country := "Atlantis", ISO3 := some "ATL", CTS_Name := cat,
          Unit := "Percent of GDP", cells := cellsAll1 })) ++
      ((env_expenditures_to_sum_up.filter (fun c => !(c == "ENV_EXP_WASTE"))).map
        (fun cat =>
          { Country := "Lemuria", ISO3 := some "LEM", CTS_Name := cat,
            Unit := "Percent of GDP", cells := cellsAll1 })) }

/-- The pivot columns `clean_env_exp_data` builds from `sampleEnvFrame`
(dedup keeps the last occurrence of a duplicate, hence this order). -/
def samplePivotCols : List String :=
  ["ENV_EXP_WASTE", "ENV_EXP_Prot", "ENV_EXP_BIODIV", "ENV_EXP_OTHER",
   "ENV_EXP_ResDev", "ENV_EXP_POLLUTION", "ENV_EXP_WASTEWATER"]

/-- The pivoted Atlantis row of `sampleEnvFrame`: every sub-category is 1. -/
def samplePivRowA : EnvPivotRow :=
  { Country := "Atlantis", ISO3 := some "ATL", Year := "F2010",
    vals := samplePivotCols.map (fun c => (c, some 1)) }

/-- The pivoted Lemuria row of `sampleEnvFrame`: the waste cell is missing. -/
def samplePivRowL : EnvPivotRow :=
  { Country := "Lemuria", ISO3 := some "LEM", Year := "F2010",
    vals := samplePivotCols.map (fun c =>
      (c, if c == "ENV_EXP_WASTE" then none else some 1)) }

/-- The cleaned output of `clean_env_exp_data` on `sampleEnvFrame`: the
Atlantis total is 7 (all seven sub-categories present), the Lemuria total is
6 (the missing waste cell contributes zero). -/
def sampleEnvOut : List EnvRow :=
  [ { country := "Atlantis", ISO_3166_1_alpha_3 := some "ATL", year := 2010,
      ENV_EXP_TOTAL := 7, extra := [] },
    { country := "Lemuria", ISO_3166_1_alpha_3 := some "LEM", year := 2010,
      ENV_EXP_TOTAL := 6, extra := [] } ]

/-- The year-column labels a World-Bank-style health extract may carry (the
raw data spans 1990–2022); validity hypotheses below restrict the raw
columns to these. -/
def healthYearLabels : List String :=
  (List.range' 1990 33).map (fun n => toString n)

/-- A raw health row with complete 2010–2019 values. -/
def gapFreeHealthRow : HealthRawRow :=
  { country := "Kingdom of Atlantis",
    cells := healthYearCols.map (fun y => (y, Cell.num 5)) }

/-- A raw health row with a placeholder gap in 2015. -/
def gappedHealthRow : HealthRawRow :=
  { country := "Lemuria",
    cells := healthYearCols.map (fun y =>
      (y, if y == "2015" then Cell.txt ".." else Cell.num 3)) }

/-- A raw health extract holding one complete country, one country with a
2015 gap, and the footer row. -/
def sampleHealthFrameGap : HealthRawFrame :=
  { cols := healthYearCols,
    rows := [gapFreeHealthRow, gappedHealthRow,
             { country := "Source: World Development Indicators", cells := [] }] }

/-! ## Theorems -/

/-- C9: For every row of the dashboard-facing derived expenditure table
`df_subset`, the derived column satisfies
`Other = 100 - (Health Expenses + Environment Expenses)`, with no clamping:
if the two expenditures sum to more than 100, `Other` is negative. -/
theorem c9_other_is_unclamped_residual (df_global : List AppRow) (row : SubsetRow)
    (hrow : row ∈ df_subset df_global) :
    row.Other = 100 - (row.HealthExpenses + row.EnvironmentExpenses) ∧
      (100 < row.HealthExpenses + row.EnvironmentExpenses → row.Other < 0) := by
  rcases List.mem_map.mp hrow with ⟨r, -, rfl⟩
  refine ⟨rfl, fun h => ?_⟩
  simp only
  linarith

/-- Witness for C9 at a concrete over-100 row: `Other = -10 < 0`. -/
theorem c9_other_is_unclamped_residual_witness :
    sampleSubsetRow.Other =
        100 - (sampleSubsetRow.HealthExpenses + sampleSubsetRow.EnvironmentExpenses) ∧
      (100 < sampleSubsetRow.HealthExpenses + sampleSubsetRow.EnvironmentExpenses →
        sampleSubsetRow.Other < 0) :=
  c9_other_is_unclamped_residual sampleAppTable sampleSubsetRow
    (by norm_num [df_subset, sampleAppTable, sampleSubsetRow])

/-- C8: For every country name, `get_country_code` either returns the ISO
3166-1 alpha-3 code found by the lookup or the none marker; it never raises
for an unknown name (its result type is a plain `Option`, the `LookupError`
branch being caught).  Moreover the cleaners keep rows whose name fails to
resolve — the non-ISO3 columns of the health and burden cleaner outputs do
not depend on the resolver at all, so an unresolved name yields the same row
with a missing ISO3 marker rather than aborting the pipeline. -/
theorem c8_resolver_never_raises_and_rows_kept :
    (∀ (lookup : String → Except Unit PycoCountry) (name : String),
        (∃ c, lookup name = .ok c ∧ get_country_code lookup name = some c.alpha_3) ∨
          (get_country_code lookup name = none ∧ ∀ c, lookup name ≠ .ok c)) ∧
    (∀ (lookup lookup2 : String → Except Unit PycoCountry)
        (df : HealthRawFrame) (cm : List (String × String)),
        (clean_health_exp_data lookup df cm).map
            (fun r => (r.country, r.year, r.HEALTH_EXP)) =
          (clean_health_exp_data lookup2 df cm).map
            (fun r => (r.country, r.year, r.HEALTH_EXP))) ∧
    (∀ (lookup lookup2 : String → Except Unit PycoCountry)
        (df : List BurdenRawRow) (cm vm : List (String × String))
        (rem : List String),
        (clean_env_burden_data lookup df cm vm rem).map
            (fun r => (r.country, r.year, r.vals)) =
          (clean_env_burden_data lookup2 df cm vm rem).map
            (fun r => (r.country, r.year, r.vals))) := by
  refine ⟨fun lookup name => ?_, fun lookup lookup2 df cm => ?_,
    fun lookup lookup2 df cm vm rem => ?_⟩
  · cases h : lookup name with
    | ok c => exact .inl ⟨c, rfl, by simp [get_country_code, h]⟩
    | error e =>
      exact .inr ⟨by simp [get_country_code, h], fun c hc => by simp [h] at hc⟩
  · simp [clean_health_exp_data, List.map_map]
  · simp [clean_env_burden_data, List.map_map]

/-- Witness for C8: the resolver returns a code for a known name and the
none marker for an unknown one, and the concrete health cleaner output
(ISO3 column aside) is the same under a resolver that knows nothing. -/
theorem c8_resolver_never_raises_and_rows_kept_witness :
    get_country_code sampleLookup "Atlantis" = some "ATL" ∧
    get_country_code sampleLookup "Nowhere" = none ∧
    (clean_health_exp_data sampleLookup sampleHealthFrame sampleCM).map
        (fun r => (r.country, r.year, r.HEALTH_EXP)) =
      (clean_health_exp_data noLookup sampleHealthFrame sampleCM).map
        (fun r => (r.country, r.year, r.HEALTH_EXP)) :=
  ⟨by decide, by decide,
   c8_resolver_never_raises_and_rows_kept.2.1 sampleLookup noLookup
     sampleHealthFrame sampleCM⟩

/-- C5: In the health and burden cleaners the country-name mapping is applied
before ISO3 resolution: the `ISO_3166_1_alpha_3` column of every output row
equals the resolver applied to the mapped (canonical) country name held in
the row's `country` column, and that column is itself the image of a raw
name under the mapping. -/
theorem c5_mapping_applied_before_resolution
    (lookup : String → Except Unit PycoCountry) :
    (∀ (df : HealthRawFrame) (cm : List (String × String))
        (row : HealthRow), row ∈ clean_health_exp_data lookup df cm →
        row.ISO_3166_1_alpha_3 = get_country_code lookup row.country ∧
          ∃ rawName, row.country = applyMap cm rawName) ∧
    (∀ (df : List BurdenRawRow) (cm vm : List (String × String))
        (rem : List String) (row : BurdenRow),
        row ∈ clean_env_burden_data lookup df cm vm rem →
        row.ISO_3166_1_alpha_3 = get_country_code lookup row.country ∧
          ∃ rawName, row.country = applyMap cm rawName) := by
  constructor
  · intro df cm row hrow
    rcases List.mem_map.mp hrow with ⟨m, hm, rfl⟩
    refine ⟨rfl, ?_⟩
    have hm2 := (List.mem_filter.mp hm).1
    rcases List.mem_flatMap.mp hm2 with ⟨rr, hrr, hmem⟩
    rcases List.mem_map.mp hmem with ⟨y, -, rfl⟩
    rcases List.mem_filter.mp hrr with ⟨hrr2, -⟩
    simp only [healthPrepared, List.map_map, List.mem_map] at hrr2
    rcases hrr2 with ⟨r0, -, rfl⟩
    exact ⟨r0.country, rfl⟩
  · intro df cm vm rem row hrow
    rcases List.mem_map.mp hrow with ⟨pr, -, rfl⟩
    exact ⟨rfl, pr.country, rfl⟩

/-- Witness for C5: on `sampleHealthFrame` the cleaned row carries the ISO3
code of the mapped name `Atlantis`, which only the mapped form resolves. -/
theorem c5_mapping_applied_before_resolution_witness :
    sampleHealthRow.ISO_3166_1_alpha_3 =
        get_country_code sampleLookup sampleHealthRow.country ∧
      ∃ rawName, sampleHealthRow.country = applyMap sampleCM rawName :=
  (c5_mapping_applied_before_resolution sampleLookup).1 sampleHealthFrame sampleCM
    sampleHealthRow (by decide)

/-- C3: The key set of the Merge Engine's output equals the intersection of
the key sets of the three cleaned inputs: a `(country, year, ISO3)` key
appears in the merged canonical dataset `env_burden_data` if and only if it
appears in the health, environment, and burden cleaner outputs. -/
theorem c3_merge_keys_are_intersection (h : List HealthRow) (e : List EnvRow)
    (b : List BurdenRow) (k : String × Nat × Option String) :
    k ∈ (env_burden_data h e b).map mergedKey ↔
      k ∈ h.map healthKey ∧ k ∈ e.map envKey ∧ k ∈ b.map burdenKey := by
  constructor
  · intro hk
    rcases List.mem_map.mp hk with ⟨row, hrow, rfl⟩
    rcases List.mem_flatMap.mp hrow with ⟨pr, hpr, hmem⟩
    rcases List.mem_map.mp hmem with ⟨br, hbr, rfl⟩
    rcases List.mem_flatMap.mp hpr with ⟨hr, hhr, hmem2⟩
    rcases List.mem_map.mp hmem2 with ⟨er, her, rfl⟩
    have hbr2 := List.mem_filter.mp hbr
    have her2 := List.mem_filter.mp her
    simp only [Bool.and_eq_true, beq_iff_eq] at hbr2 her2
    obtain ⟨hbmem, ⟨hb1, hb2⟩, hb3⟩ := hbr2
    obtain ⟨hemem, ⟨he1, he2⟩, he3⟩ := her2
    refine ⟨List.mem_map.mpr ⟨hr, hhr, rfl⟩, ?_, ?_⟩
    · exact List.mem_map.mpr ⟨er, hemem,
        by simp [envKey, healthKey, mergedKey, he1, he2, he3]⟩
    · exact List.mem_map.mpr ⟨br, hbmem,
        by simp [burdenKey, healthKey, mergedKey, hb1, hb2, hb3]⟩
  · rintro ⟨hkh, hke, hkb⟩
    rcases List.mem_map.mp hkh with ⟨hr, hhr, rfl⟩
    rcases List.mem_map.mp hke with ⟨er, her, hkeq⟩
    rcases List.mem_map.mp hkb with ⟨br, hbr, hkbq⟩
    simp only [healthKey, envKey, burdenKey, Prod.mk.injEq] at hkeq hkbq
    refine List.mem_map.mpr ?_
    refine ⟨{ country := hr.country, year := hr.year,
              ISO_3166_1_alpha_3 := hr.ISO_3166_1_alpha_3,
              HEALTH_EXP := hr.HEALTH_EXP, ENV_EXP_TOTAL := er.ENV_EXP_TOTAL,
              envExtra := er.extra, burdenVals := br.vals }, ?_, rfl⟩
    refine List.mem_flatMap.mpr ⟨(hr, er), ?_, ?_⟩
    · refine List.mem_flatMap.mpr ⟨hr, hhr, List.mem_map.mpr ⟨er, ?_, rfl⟩⟩
      refine List.mem_filter.mpr ⟨her, ?_⟩
      simp [hkeq.1, hkeq.2.1, hkeq.2.2]
    · refine List.mem_map.mpr ⟨br, ?_, rfl⟩
      refine List.mem_filter.mpr ⟨hbr, ?_⟩
      simp [hkbq.1, hkbq.2.1, hkbq.2.2]

/-- Witness for C3 at a concrete key present in all three inputs. -/
theorem c3_merge_keys_are_intersection_witness :
    ("Atlantis", 2010, some "ATL") ∈
        (env_burden_data sampleHealthClean sampleEnvClean sampleBurdenClean).map mergedKey ↔
      ("Atlantis", 2010, some "ATL") ∈ sampleHealthClean.map healthKey ∧
        ("Atlantis", 2010, some "ATL") ∈ sampleEnvClean.map envKey ∧
        ("Atlantis", 2010, some "ATL") ∈ sampleBurdenClean.map burdenKey :=
  c3_merge_keys_are_intersection sampleHealthClean sampleEnvClean sampleBurdenClean
    ("Atlantis", 2010, some "ATL")

/-- C1 counterexample: on a raw extract in which, after filtering to the
aggregate sex, the triple (Atlantis, 2010, Ambient ozone pollution) occurs
in two rows (values 1 and 3), `clean_env_burden_data` does **not**
raise/report a duplicate-key error: it returns normally with exactly one row
for that key whose value 2 is the arithmetic mean of the duplicates — and 2
differs from both raw values, so a genuinely averaged row is returned.  This
refutes the claim that the cleaner fails loudly on duplicate pivot keys. -/
theorem c1_counterexample_silently_averaged :
    clean_env_burden_data noLookup burdenDupRaw [] [] = [burdenDupCleanRow] ∧
      (2 : ℚ) ≠ 1 ∧ (2 : ℚ) ≠ 3 := by
  refine ⟨?_, by norm_num, by norm_num⟩
  simp [clean_env_burden_data, burdenPivot, burdenKeys, burdenCols, burdenFiltered,
    burdenMatchingVals, listMean, applyMap, get_country_code, indicatorsToRemoveDefault,
    noLookup, burdenDupRaw, burdenDupCleanRow, List.dedup]
  norm_num

/-- C1 amended: when a `(country, year, indicator)` triple occurs in more
than one row after the sex and indicator filters, `clean_env_burden_data`
does not raise: it returns a single row per `(country, year)` key in which
every indicator value is the arithmetic mean (`listMean`) of all matching
raw `val` entries — duplicates are silently aggregated, never reported. -/
theorem c1_amended_duplicates_silently_averaged
    (lookup : String → Except Unit PycoCountry) (df : List BurdenRawRow)
    (cm vm : List (String × String)) (rem : List String) (row : BurdenRow)
    (hrow : row ∈ clean_env_burden_data lookup df cm vm rem) :
    ∃ rawCountry, row.country = applyMap cm rawCountry ∧
      ∀ p ∈ row.vals, ∃ ind, p.1 = applyMap vm ind ∧
        p.2 = listMean (burdenMatchingVals (burdenFiltered df rem)
          rawCountry row.year ind) := by
  rcases List.mem_map.mp hrow with ⟨pr, hpr, rfl⟩
  rcases List.mem_map.mp hpr with ⟨k, hk, rfl⟩
  refine ⟨k.1, rfl, ?_⟩
  intro p hp
  simp only [List.mem_map] at hp
  rcases hp with ⟨q, hq, rfl⟩
  rcases hq with ⟨col, hcol, rfl⟩
  exact ⟨col, rfl, rfl⟩

/-- Witness for the amended C1, at the duplicate-key extract `burdenDupRaw`:
the returned row's single indicator value is the mean of the matching raw
values. -/
theorem c1_amended_duplicates_silently_averaged_witness :
    ∃ rawCountry, burdenDupCleanRow.country = applyMap [] rawCountry ∧
      ∀ p ∈ burdenDupCleanRow.vals, ∃ ind, p.1 = applyMap [] ind ∧
        p.2 = listMean (burdenMatchingVals
          (burdenFiltered burdenDupRaw indicatorsToRemoveDefault)
          rawCountry burdenDupCleanRow.year ind) :=
  c1_amended_duplicates_silently_averaged noLookup burdenDupRaw [] []
    indicatorsToRemoveDefault burdenDupCleanRow
    (by
      simp [clean_env_burden_data, burdenPivot, burdenKeys, burdenCols, burdenFiltered,
        burdenMatchingVals, listMean, applyMap, get_country_code, indicatorsToRemoveDefault,
        noLookup, burdenDupRaw, burdenDupCleanRow, List.dedup]
      norm_num)

/-! Helper facts about the concrete sample environment frame. -/

/-- Pivot keys of the sample environment frame. -/
theorem sampleEnv_keys : envPivotKeys (envMelted sampleEnvFrame) =
    [("Atlantis", some "ATL", "F2010"), ("Lemuria", some "LEM", "F2010")] := by decide

/-- Pivot columns of the sample environment frame. -/
theorem sampleEnv_cols : envPivotCols (envMelted sampleEnvFrame) = samplePivotCols := by
  decide

/-- Every Atlantis pivot cell holds the single value 1. -/
theorem sampleEnv_mv_A : ∀ c ∈ samplePivotCols,
    envMatchingVals (envMelted sampleEnvFrame) ("Atlantis", some "ATL", "F2010") c
      = [1] := by decide

/-- Every Lemuria pivot cell holds 1, except the empty waste cell. -/
theorem sampleEnv_mv_L : ∀ c ∈ samplePivotCols,
    envMatchingVals (envMelted sampleEnvFrame) ("Lemuria", some "LEM", "F2010") c
      = (if c == "ENV_EXP_WASTE" then [] else [1]) := by decide

/-- The pivot of the sample environment frame, evaluated. -/
theorem sampleEnv_pivoted : envPivoted sampleEnvFrame [] = [samplePivRowA, samplePivRowL] := by
  rw [envPivoted, sampleEnv_keys, sampleEnv_cols]
  simp only [List.map_cons, List.map_nil, samplePivRowA, samplePivRowL]
  congr 1
  · congr 1
    refine List.map_congr_left fun c hc => ?_
    rw [sampleEnv_mv_A c hc]
    norm_num [listMean, applyMap]
  congr 1
  congr 1
  refine List.map_congr_left fun c hc => ?_
  rw [sampleEnv_mv_L c hc]
  by_cases h : c = "ENV_EXP_WASTE"
  · simp [h, listMean, applyMap]
  · simp [h, listMean, applyMap]

/-- Selecting one sub-category of the Atlantis row yields its single value. -/
theorem sampleEnv_fm_A : ∀ c ∈ env_expenditures_to_sum_up,
    ((samplePivRowA.vals.filter (fun p => p.1 == c)).filterMap (fun p => p.2)) = [1] := by
  decide

/-- Selecting one sub-category of the Lemuria row: the waste column holds no
value, every other column its single value. -/
theorem sampleEnv_fm_L : ∀ c ∈ env_expenditures_to_sum_up,
    ((samplePivRowL.vals.filter (fun p => p.1 == c)).filterMap (fun p => p.2)) =
      (if c == "ENV_EXP_WASTE" then [] else [1]) := by decide

/-- The Atlantis row-sum over the seven sub-categories. -/
theorem sampleEnv_totA : envTotal samplePivRowA.vals = 7 := by
  rw [envTotal]
  rw [List.map_congr_left (fun c hc => by
    simp only [colSum, sampleEnv_fm_A c hc]
    norm_num : ∀ c ∈ env_expenditures_to_sum_up,
      colSum samplePivRowA.vals c = (1 : ℚ))]
  norm_num [env_expenditures_to_sum_up]

/-- The Lemuria row-sum: the missing waste cell contributes zero. -/
theorem sampleEnv_totL : envTotal samplePivRowL.vals = 6 := by
  rw [envTotal]
  rw [List.map_congr_left (fun c hc => by
    simp only [colSum, sampleEnv_fm_L c hc]
    split <;> simp : ∀ c ∈ env_expenditures_to_sum_up,
      colSum samplePivRowL.vals c = (if c == "ENV_EXP_WASTE" then (0 : ℚ) else 1))]
  simp [env_expenditures_to_sum_up]
  norm_num

/-- The environment cleaner's output on the sample frame, evaluated. -/
theorem sampleEnv_clean_eq : clean_env_exp_data sampleEnvFrame [] [] = .ok sampleEnvOut := by
  rw [clean_env_exp_data, if_pos (by decide), sampleEnv_pivoted]
  simp only [List.map_cons, List.map_nil, List.filter_cons, sampleEnv_totA, sampleEnv_totL]
  norm_num [sampleEnvOut, applyMap, strToNat?, stripF, digitVal]
  decide

/-- A year label of the raw health extract that step 8's string comparison
keeps parses to a year in [2010, 2019]. -/
theorem healthYearLabel_in_window : ∀ s ∈ healthYearLabels,
    leStr "2010" s = true → leStr s "2019" = true →
    2010 ≤ (strToNat? s).getD 0 ∧ (strToNat? s).getD 0 ≤ 2019 := by decide

/-- C7: Every row of the health cleaner's output (for year-labelled raw
columns) and every row of the environmental expenditure cleaner's output
has a year in the closed range [2010, 2019]; the burden cleaner applies no
year filter of its own — a year occurs in its output exactly when it occurs
in the raw data surviving the sex and indicator filters. -/
theorem c7_year_windows
    (lookup : String → Except Unit PycoCountry)
    (dfh : HealthRawFrame) (cmh : List (String × String))
    (hlabels : ∀ c ∈ dfh.cols, c ∈ healthYearLabels)
    (dfe : EnvRawFrame) (cme vme : List (String × String)) (out : List EnvRow)
    (hok : clean_env_exp_data dfe cme vme = .ok out)
    (dfb : List BurdenRawRow) (cmb vmb : List (String × String))
    (remb : List String) :
    (∀ row ∈ clean_health_exp_data lookup dfh cmh,
        2010 ≤ row.year ∧ row.year ≤ 2019) ∧
    (∀ row ∈ out, 2010 ≤ row.year ∧ row.year ≤ 2019) ∧
    (∀ y : Nat,
        (∃ row ∈ clean_env_burden_data lookup dfb cmb vmb remb, row.year = y) ↔
          (∃ r ∈ burdenFiltered dfb remb, r.year = y)) := by
  refine ⟨?_, ?_, ?_⟩
  · intro row hrow
    rcases List.mem_map.mp hrow with ⟨m, hm, rfl⟩
    rcases List.mem_filter.mp hm with ⟨hm1, hm2⟩
    rcases List.mem_flatMap.mp hm1 with ⟨rr, -, hmm⟩
    rcases List.mem_map.mp hmm with ⟨y, hy, rfl⟩
    simp only [Bool.and_eq_true] at hm2
    exact healthYearLabel_in_window y (hlabels y hy) hm2.1 hm2.2
  · intro row hrow
    rw [clean_env_exp_data] at hok
    split at hok
    · rw [Except.ok.injEq] at hok
      rw [← hok] at hrow
      have := (List.mem_filter.mp hrow).2
      simp only [Bool.and_eq_true, decide_eq_true_eq] at this
      exact this
    · cases hok
  · intro y
    constructor
    · rintro ⟨row, hrow, rfl⟩
      rcases List.mem_map.mp hrow with ⟨pr, hpr, rfl⟩
      rcases List.mem_map.mp hpr with ⟨k, hk, rfl⟩
      rcases List.mem_map.mp (List.mem_dedup.mp hk) with ⟨r, hr, hkr⟩
      exact ⟨r, hr, by rw [← hkr]⟩
    · rintro ⟨r, hr, rfl⟩
      have hk : (r.location_name, r.year) ∈ burdenKeys (burdenFiltered dfb remb) :=
        List.mem_dedup.mpr (List.mem_map.mpr ⟨r, hr, rfl⟩)
      exact ⟨_, List.mem_map.mpr
        ⟨_, List.mem_map.mpr ⟨(r.location_name, r.year), hk, rfl⟩, rfl⟩, rfl⟩

/-- Witness for C7: concrete instances of all three range statements. -/
theorem c7_year_windows_witness :
    (∀ row ∈ clean_health_exp_data sampleLookup sampleHealthFrame sampleCM,
        2010 ≤ row.year ∧ row.year ≤ 2019) ∧
    (∀ row ∈ sampleEnvOut, 2010 ≤ row.year ∧ row.year ≤ 2019) ∧
    (∀ y : Nat,
        (∃ row ∈ clean_env_burden_data sampleLookup burdenDupRaw [] []
            indicatorsToRemoveDefault, row.year = y) ↔
          (∃ r ∈ burdenFiltered burdenDupRaw indicatorsToRemoveDefault, r.year = y)) :=
  c7_year_windows sampleLookup sampleHealthFrame sampleCM (by decide)
    sampleEnvFrame [] [] sampleEnvOut sampleEnv_clean_eq
    burdenDupRaw [] [] indicatorsToRemoveDefault

/-- Every row of a successful `clean_env_exp_data` run is the image of a
pivoted row: same ISO3, mapped country, parsed year, and a total computed by
`envTotal` from the pivoted sub-category cells. -/
theorem clean_env_exp_mem (df : EnvRawFrame) (cm vm : List (String × String))
    (out : List EnvRow) (hok : clean_env_exp_data df cm vm = .ok out)
    (row : EnvRow) (hrow : row ∈ out) :
    ∃ prow ∈ envPivoted df vm,
      row = { country := applyMap cm prow.Country,
              ISO_3166_1_alpha_3 := prow.ISO3,
              year := (strToNat? (stripF prow.Year)).getD 0,
              ENV_EXP_TOTAL := envTotal prow.vals,
              extra := prow.vals.filter
                (fun p => !(env_expenditures_to_sum_up.contains p.1)) } := by
  rw [clean_env_exp_data] at hok
  split at hok
  · rw [Except.ok.injEq] at hok
    rw [← hok] at hrow
    rcases List.mem_map.mp (List.mem_filter.mp hrow).1 with ⟨prow, hp, heq⟩
    exact ⟨prow, hp, heq.symm⟩
  · cases hok

/-- With duplicate-free column labels, a column's entries reduce to the
first (only) entry found for that label. -/
theorem colSum_eq_find (vals : List (String × Option ℚ)) (c : String)
    (hnd : (vals.map Prod.fst).Nodup) :
    colSum vals c = ((vals.find? (fun p => p.1 == c)).bind (fun p => p.2)).getD 0 := by
  induction vals with
  | nil => rfl
  | cons p l ih =>
    simp only [List.map_cons, List.nodup_cons] at hnd
    by_cases h : p.1 = c
    · have hrest : l.filter (fun q => q.1 == c) = [] := by
        refine List.filter_eq_nil_iff.mpr fun q hq hbeq => ?_
        exact hnd.1 (List.mem_map.mpr ⟨q, hq, by rw [beq_iff_eq.mp hbeq, h]⟩)
      rw [List.find?_cons_of_pos _ (by simp [h])]
      simp only [colSum, List.filter_cons, if_pos (by simp [h] : (p.1 == c) = true),
        hrest, List.filterMap_cons]
      cases hx : p.2 <;> simp [hx]
    · rw [List.find?_cons_of_neg _ (by simp [h])]
      simpa [colSum, List.filter_cons, h] using ih hnd.2

/-- With duplicate-free column labels, a stored entry is the one `find?`
returns. -/
theorem find_eq_of_mem (vals : List (String × Option ℚ)) (c : String)
    (x : Option ℚ) (hnd : (vals.map Prod.fst).Nodup) (hm : (c, x) ∈ vals) :
    vals.find? (fun p => p.1 == c) = some (c, x) := by
  induction vals with
  | nil => cases hm
  | cons p l ih =>
    simp only [List.map_cons, List.nodup_cons] at hnd
    rcases List.mem_cons.mp hm with heq | hmem
    · rw [← heq]
      exact List.find?_cons_of_pos _ (by simp)
    · have hc : c ∈ l.map Prod.fst := List.mem_map.mpr ⟨(c, x), hmem, rfl⟩
      have hne : ¬ p.1 = c := fun h => hnd.1 (h ▸ hc)
      rw [List.find?_cons_of_neg _ (by simp [hne])]
      exact ih hnd.2 hmem

/-- C2: For every row of the environmental expenditure cleaner's output,
`ENV_EXP_TOTAL` equals the exact sum of the seven named sub-category columns
as they stand after the pivot and renaming steps: whenever the originating
pivot row stores the value `f c` for each of the seven sub-categories (with
duplicate-free column labels), the row's total is exactly `Σ f` over the
seven-category list. -/
theorem c2_env_total_exact_sum_of_subcategories
    (df : EnvRawFrame) (cm vm : List (String × String)) (out : List EnvRow)
    (hok : clean_env_exp_data df cm vm = .ok out) (row : EnvRow)
    (hrow : row ∈ out) :
    ∃ prow ∈ envPivoted df vm,
      row.country = applyMap cm prow.Country ∧
      row.ISO_3166_1_alpha_3 = prow.ISO3 ∧
      row.year = (strToNat? (stripF prow.Year)).getD 0 ∧
      ∀ f : String → ℚ,
        (prow.vals.map Prod.fst).Nodup →
        (∀ c ∈ env_expenditures_to_sum_up, (c, some (f c)) ∈ prow.vals) →
        row.ENV_EXP_TOTAL = (env_expenditures_to_sum_up.map f).sum := by
  rcases clean_env_exp_mem df cm vm out hok row hrow with ⟨prow, hp, rfl⟩
  refine ⟨prow, hp, rfl, rfl, rfl, fun f hnd hall => ?_⟩
  show envTotal prow.vals = _
  rw [envTotal]
  rw [List.map_congr_left (fun c hc => by
    rw [colSum_eq_find prow.vals c hnd, find_eq_of_mem prow.vals c (some (f c)) hnd
      (hall c hc)]
    rfl : ∀ c ∈ env_expenditures_to_sum_up, colSum prow.vals c = f c)]

/-- Witness for C2 at the Atlantis row of the sample frame: the total 7 is
the exact sum of the seven stored sub-category values (all equal to 1). -/
theorem c2_env_total_exact_sum_of_subcategories_witness :
    ∃ prow ∈ envPivoted sampleEnvFrame [],
      ("Atlantis" : String) = applyMap [] prow.Country ∧
      (some "ATL" : Option String) = prow.ISO3 ∧
      (2010 : Nat) = (strToNat? (stripF prow.Year)).getD 0 ∧
      ∀ f : String → ℚ,
        (prow.vals.map Prod.fst).Nodup →
        (∀ c ∈ env_expenditures_to_sum_up, (c, some (f c)) ∈ prow.vals) →
        (7 : ℚ) = (env_expenditures_to_sum_up.map f).sum :=
  c2_env_total_exact_sum_of_subcategories sampleEnvFrame [] [] sampleEnvOut
    sampleEnv_clean_eq
    { country := "Atlantis", ISO_3166_1_alpha_3 := some "ATL", year := 2010,
      ENV_EXP_TOTAL := 7, extra := [] }
    (by rw [sampleEnvOut]; exact List.mem_cons_self _ _)

/-- C10: For every row of the environmental expenditure cleaner's output
(whose pivot columns are duplicate-free), `ENV_EXP_TOTAL` is the sum over
the seven sub-categories of the value stored for that category when one is
present and zero when the cell is missing — so the total itself is a plain
number (its type is `ℚ`, never a missing marker). -/
theorem c10_env_total_missing_contributes_zero
    (df : EnvRawFrame) (cm vm : List (String × String)) (out : List EnvRow)
    (hok : clean_env_exp_data df cm vm = .ok out) (row : EnvRow)
    (hrow : row ∈ out) :
    ∃ prow ∈ envPivoted df vm,
      row.country = applyMap cm prow.Country ∧
      row.ISO_3166_1_alpha_3 = prow.ISO3 ∧
      row.year = (strToNat? (stripF prow.Year)).getD 0 ∧
      ((prow.vals.map Prod.fst).Nodup →
        row.ENV_EXP_TOTAL = (env_expenditures_to_sum_up.map
          (fun c => ((prow.vals.find? (fun p => p.1 == c)).bind
            (fun p => p.2)).getD 0)).sum) := by
  rcases clean_env_exp_mem df cm vm out hok row hrow with ⟨prow, hp, rfl⟩
  refine ⟨prow, hp, rfl, rfl, rfl, fun hnd => ?_⟩
  show envTotal prow.vals = _
  rw [envTotal]
  rw [List.map_congr_left (fun c hc => colSum_eq_find prow.vals c hnd)]

/-- Witness for C10 at the Lemuria row of the sample frame: the waste cell
is missing and the total 6 is the sum of the six present values. -/
theorem c10_env_total_missing_contributes_zero_witness :
    ∃ prow ∈ envPivoted sampleEnvFrame [],
      ("Lemuria" : String) = applyMap [] prow.Country ∧
      (some "LEM" : Option String) = prow.ISO3 ∧
      (2010 : Nat) = (strToNat? (stripF prow.Year)).getD 0 ∧
      ((prow.vals.map Prod.fst).Nodup →
        (6 : ℚ) = (env_expenditures_to_sum_up.map
          (fun c => ((prow.vals.find? (fun p => p.1 == c)).bind
            (fun p => p.2)).getD 0)).sum) :=
  c10_env_total_missing_contributes_zero sampleEnvFrame [] [] sampleEnvOut
    sampleEnv_clean_eq
    { country := "Lemuria", ISO_3166_1_alpha_3 := some "LEM", year := 2010,
      ENV_EXP_TOTAL := 6, extra := [] }
    (by rw [sampleEnvOut]; exact List.mem_cons_of_mem _ (List.mem_cons_self _ _))

/-- Reading a cell commutes with the placeholder replacement of step 5. -/
theorem getCell_mapped (a : String) (cells : List (String × Cell)) (y : String) :
    getCell ⟨a, cells.map (fun p => (p.1, replaceNAtokens p.2))⟩ y
      = replaceNAtokens (getCell ⟨a, cells⟩ y) := by
  induction cells with
  | nil => rfl
  | cons p l ih =>
    simp only [List.map_cons]
    by_cases h : p.1 = y
    · simp only [getCell]
      rw [List.find?_cons_of_pos _ (by simp [h]), List.find?_cons_of_pos _ (by simp [h])]
    · simp only [getCell] at ih ⊢
      rw [List.find?_cons_of_neg _ (by simp [h]), List.find?_cons_of_neg _ (by simp [h])]
      exact ih

/-- `healthPrepared` as a single map over the footer-stripped raw rows. -/
theorem healthPrepared_eq (df : HealthRawFrame) (cm : List (String × String)) :
    healthPrepared df cm = df.rows.dropLast.map (fun r0 =>
      ⟨applyMap cm r0.country,
       r0.cells.map (fun p => (p.1, replaceNAtokens p.2))⟩) := by
  simp [healthPrepared, List.map_map]
  rfl

/-- Length of a filtered flatMap, block by block. -/
theorem length_filter_flatMap {α β : Type} (l : List α) (f : α → List β)
    (p : β → Bool) :
    ((l.flatMap f).filter p).length
      = (l.map (fun a => ((f a).filter p).length)).sum := by
  induction l with
  | nil => rfl
  | cons a t ih => simp [List.filter_append, ih]

/-- Summing a constant over exactly the matching elements counts them. -/
theorem sum_map_ite_count {α : Type} (l : List α) (p : α → Bool) (N : Nat) :
    (l.map (fun a => if p a then N else 0)).sum = N * l.countP p := by
  induction l with
  | nil => simp
  | cons a t ih =>
    by_cases h : p a
    · simp [h, ih, List.countP_cons]
      ring
    · simp [h, ih, List.countP_cons]

/-- A raw year label within step 8's string window is one of the ten
2010–2019 labels, and conversely. -/
theorem healthYearLabel_window_eq : ∀ s ∈ healthYearLabels,
    (leStr "2010" s && leStr s "2019") = decide (s ∈ healthYearCols) := by decide

/-- The ten 2010–2019 labels, as a `Finset`, have ten elements. -/
theorem healthYearCols_toFinset_card : healthYearCols.toFinset.card = 10 := by decide

/-- Under the validity hypotheses, a raw frame's columns passing step 8's
string window are exactly the ten year labels. -/
theorem healthCols_window_length (df : HealthRawFrame)
    (hvalid : ∀ c ∈ df.cols, c ∈ healthYearLabels)
    (hnodupc : df.cols.Nodup)
    (hten : ∀ c ∈ healthYearCols, c ∈ df.cols) :
    (df.cols.filter (fun y => leStr "2010" y && leStr y "2019")).length = 10 := by
  have hcongr : df.cols.filter (fun y => leStr "2010" y && leStr y "2019")
      = df.cols.filter (fun y => decide (y ∈ healthYearCols)) :=
    List.filter_congr (fun y hy => healthYearLabel_window_eq y (hvalid y hy))
  rw [hcongr]
  have hnd : (df.cols.filter (fun y => decide (y ∈ healthYearCols))).Nodup :=
    hnodupc.filter _
  rw [← List.toFinset_card_of_nodup hnd]
  have : (df.cols.filter (fun y => decide (y ∈ healthYearCols))).toFinset
      = healthYearCols.toFinset := by
    ext a
    simp only [List.mem_toFinset, List.mem_filter, decide_eq_true_eq]
    exact ⟨fun h => h.2, fun h => ⟨hten a h, h⟩⟩
  rw [this, healthYearCols_toFinset_card]

/-- The country column does not influence cell reads. -/
theorem getCell_mk_cells (a : String) (r : HealthRawRow) (y : String) :
    getCell ⟨a, r.cells⟩ y = getCell r y := rfl

/-- When the mapped raw country names are pairwise distinct, so are the
country names of the rows surviving the completeness filter. -/
theorem healthRows6_countries_nodup (df : HealthRawFrame)
    (cm : List (String × String))
    (hnodup : ((df.rows.dropLast).map (fun r0 => applyMap cm r0.country)).Nodup) :
    ((healthRows6 df cm).map (fun rr => rr.country)).Nodup := by
  have hsub : ((healthRows6 df cm).map (fun rr => rr.country)).Sublist
      ((healthPrepared df cm).map (fun rr => rr.country)) :=
    (List.filter_sublist _).map _
  have hpc : (healthPrepared df cm).map (fun rr => rr.country)
      = (df.rows.dropLast).map (fun r0 => applyMap cm r0.country) := by
    rw [healthPrepared_eq, List.map_map]
    rfl
  exact hsub.nodup (hpc ▸ hnodup)

/-- C4: For every raw health expenditure extract with year-labelled columns
covering 2010–2019 and pairwise-distinct (mapped) country rows: a country
with a missing (or placeholder, i.e. missing after step 5's replacement)
value in any of the years 2010–2019 contributes no row at all to
`clean_health_exp_data`'s output, while a country with complete values for
all ten years is retained with exactly 10 output rows, one per year. -/
theorem c4_strict_ten_year_completeness
    (lookup : String → Except Unit PycoCountry)
    (df : HealthRawFrame) (cm : List (String × String))
    (hnodup : ((df.rows.dropLast).map (fun r0 => applyMap cm r0.country)).Nodup)
    (hvalid : ∀ c ∈ df.cols, c ∈ healthYearLabels)
    (hnodupc : df.cols.Nodup)
    (hten : ∀ c ∈ healthYearCols, c ∈ df.cols)
    (r : HealthRawRow) (hr : r ∈ df.rows.dropLast) :
    ((∃ y ∈ healthYearCols, replaceNAtokens (getCell r y) = Cell.na) →
        ∀ out ∈ clean_health_exp_data lookup df cm,
          out.country ≠ applyMap cm r.country) ∧
    ((∀ y ∈ healthYearCols, replaceNAtokens (getCell r y) ≠ Cell.na) →
        ((clean_health_exp_data lookup df cm).filter
            (fun out => out.country == applyMap cm r.country)).length = 10) := by
  constructor
  · rintro ⟨y0, hy0, hna⟩ out hout heq
    rcases List.mem_map.mp hout with ⟨mrec, hm, rfl⟩
    rcases List.mem_flatMap.mp (List.mem_filter.mp hm).1 with ⟨rr, hrr, hmm⟩
    rcases List.mem_map.mp hmm with ⟨y, hy, rfl⟩
    rcases List.mem_filter.mp hrr with ⟨hrp, hcomp⟩
    rw [healthPrepared_eq] at hrp
    rcases List.mem_map.mp hrp with ⟨r2, hr2, hrr2⟩
    have hcountry : applyMap cm r2.country = applyMap cm r.country := by
      rw [← hrr2] at heq
      exact heq
    have hr2r : r2 = r := List.inj_on_of_nodup_map hnodup hr2 hr hcountry
    subst hr2r
    rw [← hrr2, healthComplete, List.all_eq_true] at hcomp
    have hfalse := hcomp y0 hy0
    rw [getCell_mapped, getCell_mk_cells, hna] at hfalse
    simp at hfalse
  · intro hcompl
    have hNcols := healthCols_window_length df hvalid hnodupc hten
    have hprep_mem : (⟨applyMap cm r.country,
        r.cells.map (fun p => (p.1, replaceNAtokens p.2))⟩ : HealthRawRow)
        ∈ healthRows6 df cm := by
      refine List.mem_filter.mpr ⟨?_, ?_⟩
      · rw [healthPrepared_eq]
        exact List.mem_map.mpr ⟨r, hr, rfl⟩
      · rw [healthComplete, List.all_eq_true]
        intro y hy
        rw [getCell_mapped, getCell_mk_cells]
        simpa using hcompl y hy
    have hnd6 : ((healthRows6 df cm).map (fun rr => rr.country)).Nodup :=
      healthRows6_countries_nodup df cm hnodup
    have hcount : (healthRows6 df cm).countP
        (fun rr => rr.country == applyMap cm r.country) = 1 := by
      have hge : 0 < (healthRows6 df cm).countP
          (fun rr => rr.country == applyMap cm r.country) :=
        List.countP_pos_iff.mpr ⟨_, hprep_mem, by simp⟩
      have hle : (healthRows6 df cm).countP
          (fun rr => rr.country == applyMap cm r.country) ≤ 1 := by
        have h1 : (healthRows6 df cm).countP
            (fun rr => rr.country == applyMap cm r.country)
            = List.count (applyMap cm r.country)
                ((healthRows6 df cm).map (fun rr => rr.country)) := by
          rw [List.count_eq_countP, List.countP_map]
          rfl
        rw [h1]
        exact List.nodup_iff_count_le_one.mp hnd6 _
      omega
    have hmain : ((clean_health_exp_data lookup df cm).filter
          (fun out => out.country == applyMap cm r.country)).length
        = ((healthRows6 df cm).map (fun rr =>
            if rr.country == applyMap cm r.country then 10 else 0)).sum := by
      rw [clean_health_exp_data, List.filter_map, List.length_map,
        List.filter_filter, healthMelted, length_filter_flatMap]
      refine congrArg List.sum (List.map_congr_left fun rr hrr => ?_)
      rw [List.filter_map, List.length_map]
      by_cases h : rr.country = applyMap cm r.country
      · rw [if_pos (by simp [h])]
        refine (congrArg List.length (List.filter_congr fun y hy => ?_)).trans hNcols
        simp [Function.comp, h]
      · rw [if_neg (by simp [h])]
        refine (congrArg List.length (List.filter_eq_nil_iff.mpr
          fun y hy => ?_)).trans rfl
        simp [Function.comp, h]
    rw [hmain, sum_map_ite_count, hcount]

/-- Witness for C4 on `sampleHealthFrameGap`: the complete country keeps
exactly 10 rows; the country with the 2015 placeholder gap is excluded
entirely. -/
theorem c4_strict_ten_year_completeness_witness :
    (((clean_health_exp_data sampleLookup sampleHealthFrameGap sampleCM).filter
        (fun out => out.country == applyMap sampleCM gapFreeHealthRow.country)).length
      = 10) ∧
    (∀ out ∈ clean_health_exp_data sampleLookup sampleHealthFrameGap sampleCM,
        out.country ≠ applyMap sampleCM gappedHealthRow.country) :=
  ⟨(c4_strict_ten_year_completeness sampleLookup sampleHealthFrameGap sampleCM
      (by decide) (by decide) (by decide) (by decide) gapFreeHealthRow
      (by decide)).2 (by decide),
   (c4_strict_ten_year_completeness sampleLookup sampleHealthFrameGap sampleCM
      (by decide) (by decide) (by decide) (by decide) gappedHealthRow
      (by decide)).1 (by decide)⟩

/-- The pivot index keys are pairwise distinct. -/
theorem burdenKeys_nodup (rs : List BurdenRawRow) : (burdenKeys rs).Nodup :=
  List.nodup_dedup _

/-- A melted environment record's year label is one of the kept columns. -/
theorem envMelted_year_mem (df : EnvRawFrame) (m : MeltedEnv)
    (hm : m ∈ envMelted df) : m.Year ∈ envColsKept df.cols := by
  rcases List.mem_flatMap.mp hm with ⟨rr, -, hmm⟩
  rcases List.mem_map.mp hmm with ⟨y, hy0, hyeq⟩
  rw [← hyeq]
  exact hy0

/-- C6: For each of the three cleaners, on valid raw input (distinct year
columns; a country mapping that does not collapse two distinct occurring raw
names; one ISO3 per raw country), the output contains no two rows with the
same `(country, year)` key. -/
theorem c6_output_keys_unique
    (lookup : String → Except Unit PycoCountry)
    (dfh : HealthRawFrame) (cmh : List (String × String))
    (hhc : ((dfh.rows.dropLast).map (fun r0 => applyMap cmh r0.country)).Nodup)
    (hhy : (dfh.cols.map (fun c => (strToNat? c).getD 0)).Nodup)
    (dfb : List BurdenRawRow) (cmb vmb : List (String × String))
    (remb : List String)
    (hbinj : ∀ c1 ∈ (burdenFiltered dfb remb).map (fun r0 => r0.location_name),
        ∀ c2 ∈ (burdenFiltered dfb remb).map (fun r0 => r0.location_name),
        applyMap cmb c1 = applyMap cmb c2 → c1 = c2)
    (dfe : EnvRawFrame) (cme vme : List (String × String)) (out : List EnvRow)
    (hok : clean_env_exp_data dfe cme vme = .ok out)
    (heinj : ∀ c1 ∈ (envMelted dfe).map (fun m => m.Country),
        ∀ c2 ∈ (envMelted dfe).map (fun m => m.Country),
        applyMap cme c1 = applyMap cme c2 → c1 = c2)
    (hiso : ∀ m1 ∈ envMelted dfe, ∀ m2 ∈ envMelted dfe,
        m1.Country = m2.Country → m1.ISO3 = m2.ISO3)
    (hey : ((envColsKept dfe.cols).map
        (fun c => (strToNat? (stripF c)).getD 0)).Nodup) :
    ((clean_health_exp_data lookup dfh cmh).map
        (fun row => (row.country, row.year))).Nodup ∧
    ((clean_env_burden_data lookup dfb cmb vmb remb).map
        (fun row => (row.country, row.year))).Nodup ∧
    (out.map (fun row => (row.country, row.year))).Nodup := by
  refine ⟨?_, ?_, ?_⟩
  · have hfull : ((healthMelted dfh cmh).map
        (fun m => (m.country, (strToNat? m.year).getD 0))).Nodup := by
      rw [healthMelted, List.map_flatMap, List.flatMap_def, List.nodup_flatten]
      constructor
      · intro l' hl'
        rcases List.mem_map.mp hl' with ⟨rr, -, rfl⟩
        rw [List.map_map]
        have hrw : dfh.cols.map ((fun m => (m.country, (strToNat? m.year).getD 0)) ∘
            (fun y => (⟨rr.country, y, getCell rr y⟩ : MeltedHealth)))
            = (dfh.cols.map (fun c => (strToNat? c).getD 0)).map
                (fun n => (rr.country, n)) := by
          rw [List.map_map]
          rfl
        rw [hrw]
        exact hhy.map (fun a b hab => congrArg Prod.snd hab)
      · rw [List.pairwise_map]
        have hp : List.Pairwise (fun a b : HealthRawRow => a.country ≠ b.country)
            (healthRows6 dfh cmh) :=
          List.pairwise_map.mp (healthRows6_countries_nodup dfh cmh hhc)
        refine hp.imp ?_
        intro a b hne x hxa hxb
        rw [List.map_map] at hxa hxb
        rcases List.mem_map.mp hxa with ⟨y1, -, hx1⟩
        rcases List.mem_map.mp hxb with ⟨y2, -, hx2⟩
        have ha : a.country = x.1 := congrArg Prod.fst hx1
        have hb : b.country = x.1 := congrArg Prod.fst hx2
        exact hne (ha.trans hb.symm)
    have hkeys : (clean_health_exp_data lookup dfh cmh).map
        (fun row => (row.country, row.year))
        = ((healthMelted dfh cmh).filter
            (fun m => leStr "2010" m.year && leStr m.year "2019")).map
            (fun m => (m.country, (strToNat? m.year).getD 0)) := by
      rw [clean_health_exp_data, List.map_map]
      rfl
    rw [hkeys]
    exact List.Nodup.sublist (List.Sublist.map _ (List.filter_sublist _)) hfull
  · rw [clean_env_burden_data, burdenPivot, List.map_map, List.map_map]
    refine List.Nodup.map_on ?_ (burdenKeys_nodup _)
    intro k1 h1 k2 h2 heq
    have hc : applyMap cmb k1.1 = applyMap cmb k2.1 := congrArg Prod.fst heq
    have hyy := congrArg Prod.snd heq
    rcases List.mem_map.mp (List.mem_dedup.mp h1) with ⟨r1, hr1, hk1⟩
    rcases List.mem_map.mp (List.mem_dedup.mp h2) with ⟨r2, hr2, hk2⟩
    have hm1 : k1.1 ∈ (burdenFiltered dfb remb).map (fun r0 => r0.location_name) :=
      List.mem_map.mpr ⟨r1, hr1, by rw [← hk1]⟩
    have hm2 : k2.1 ∈ (burdenFiltered dfb remb).map (fun r0 => r0.location_name) :=
      List.mem_map.mpr ⟨r2, hr2, by rw [← hk2]⟩
    exact Prod.ext (hbinj _ hm1 _ hm2 hc) hyy
  · rw [clean_env_exp_data] at hok
    split at hok
    · rw [Except.ok.injEq] at hok
      subst hok
      have hfull : ((envPivoted dfe vme).map (fun prow =>
          (applyMap cme prow.Country,
           (strToNat? (stripF prow.Year)).getD 0))).Nodup := by
        rw [envPivoted, List.map_map]
        refine List.Nodup.map_on ?_ (List.nodup_dedup _)
        intro k1 h1 k2 h2 heq
        have hc' : applyMap cme k1.1 = applyMap cme k2.1 := congrArg Prod.fst heq
        have hy' : (strToNat? (stripF k1.2.2)).getD 0
            = (strToNat? (stripF k2.2.2)).getD 0 := congrArg Prod.snd heq
        rcases List.mem_map.mp (List.mem_dedup.mp h1) with ⟨m1, hm1, hk1⟩
        rcases List.mem_map.mp (List.mem_dedup.mp h2) with ⟨m2, hm2, hk2⟩
        have hc1 : k1.1 = m1.Country := by rw [← hk1]
        have hc2 : k2.1 = m2.Country := by rw [← hk2]
        have hceq : k1.1 = k2.1 :=
          heinj _ (List.mem_map.mpr ⟨m1, hm1, hc1.symm⟩)
            _ (List.mem_map.mpr ⟨m2, hm2, hc2.symm⟩) hc'
        have hyk1 : k1.2.2 = m1.Year := by rw [← hk1]
        have hyk2 : k2.2.2 = m2.Year := by rw [← hk2]
        have hyeq2 : k1.2.2 = k2.2.2 :=
          List.inj_on_of_nodup_map hey
            (by rw [hyk1]; exact envMelted_year_mem dfe m1 hm1)
            (by rw [hyk2]; exact envMelted_year_mem dfe m2 hm2) hy'
        have hiso1 : k1.2.1 = m1.ISO3 := by rw [← hk1]
        have hiso2 : k2.2.1 = m2.ISO3 := by rw [← hk2]
        have hcm : m1.Country = m2.Country := hc1.symm.trans (hceq.trans hc2)
        have hisoeq : m1.ISO3 = m2.ISO3 := hiso m1 hm1 m2 hm2 hcm
        refine Prod.ext hceq (Prod.ext ?_ hyeq2)
        rw [hiso1, hiso2, hisoeq]
      rw [List.filter_map, List.map_map]
      exact List.Nodup.sublist (List.Sublist.map _ (List.filter_sublist _)) hfull
    · cases hok

/-- Witness for C6: key uniqueness of all three cleaner outputs on the
concrete sample inputs. -/
theorem c6_output_keys_unique_witness :
    ((clean_health_exp_data sampleLookup sampleHealthFrame sampleCM).map
        (fun row => (row.country, row.year))).Nodup ∧
    ((clean_env_burden_data sampleLookup burdenDupRaw [] []
        indicatorsToRemoveDefault).map
        (fun row => (row.country, row.year))).Nodup ∧
    (sampleEnvOut.map (fun row => (row.country, row.year))).Nodup :=
  c6_output_keys_unique sampleLookup sampleHealthFrame sampleCM (by decide)
    (by decide) burdenDupRaw [] [] indicatorsToRemoveDefault (by decide)
    sampleEnvFrame [] [] sampleEnvOut sampleEnv_clean_eq (by decide) (by decide)
    (by decide)

end EnvBurden
